import Mathlib

/-!
Verification of the salesforce-mcp server (src/src/index.ts): a shallow
embedding of the session/transport/credential lifecycle manager.

The downstream Salesforce identity API (`conn.identity()`) is modelled as a
parameter `f : String → Except String Identity`: given the access token, it
either returns the identity record or fails (network error, HTTP 401,
malformed token — all surfaced as a rejected promise, i.e. `Except.error`).

JavaScript objects used as maps (`streamableTransports`, `sessionTokens`)
are modelled as functions `String → Option α`; property assignment is a
pointwise update and `delete` sets the key to `none`.  Transport instances
are identified by a `Nat` tag so that "same transport instance" is
expressible.  Each `await` in the source is a suspension point of Node's
single-threaded event loop; the sequential HTTP handler is embedded as a
pure state transformer, and the cross-request interleavings made possible
by those suspension points are modelled separately by an explicit
interleaving machine over the module-level `currentRequestToken` global.
-/

namespace SalesforceMcp

/-- The record returned by the Salesforce identity API, with the fields the
server reads (src/src/index.ts lines 137-141). -/
structure Identity where
  user_id : String
  username : String
  email : String
  display_name : String
  organization_id : String
deriving DecidableEq, Repr

/-- Remove the first occurrence of `pat` from `l`, scanning left to right:
the semantics of JavaScript `String.replace(pat, "")` with a string pattern,
which replaces only the first occurrence, wherever it sits.  Used by
`cleanToken` (src/src/index.ts lines 21 and 125). -/
def removeFirst (pat : List Char) : List Char → List Char
  | [] => []
  | c :: rest =>
      if pat.isPrefixOf (c :: rest) then (c :: rest).drop pat.length
      else c :: removeFirst pat rest

/-- Whether `pat` occurs as a contiguous sublist of `l`. -/
def containsSub (pat : List Char) : List Char → Bool
  | [] => pat.isEmpty
  | c :: rest => pat.isPrefixOf (c :: rest) || containsSub pat rest

/-- `token.replace("Bearer ", "")` from src/src/index.ts lines 21 and 125:
JavaScript replaces the FIRST occurrence of the substring, not specifically
a leading prefix. -/
def cleanToken (token : String) : String :=
  String.mk (removeFirst "Bearer ".toList token.toList)

/-- Per the spec's words (§3 Credential, Glossary): the forwarded string is
the header with a LEADING "Bearer " prefix stripped, otherwise verbatim.
Stated for comparison against `cleanToken`, the code's behaviour. -/
def stripLeadingBearer (token : String) : String :=
  if "Bearer ".toList.isPrefixOf token.toList then
    String.mk (token.toList.drop 7)
  else token

/-- `validateToken` from src/src/index.ts lines 19-51, embedded in `Except`
to record whether it can itself throw: the whole body sits in a
try/catch, the try branch returns `true` after a successful identity call
and the catch branch returns `false`, so every downstream outcome is mapped
to a normal (`Except.ok`) boolean completion. -/
def validateTokenE (f : String → Except String Identity) (token : String) :
    Except String Bool :=
  match f (cleanToken token) with
  | .ok _ => .ok true
  | .error _ => .ok false

/-- JavaScript falsiness of the optional header strings the server tests
with `if (!x)`: `undefined` and the empty string are falsy. -/
def isFalsy : Option String → Bool
  | none => true
  | some s => s == ""

/-- A thrown JavaScript `Error` as the handler's catch block sees it: a
message plus the optional ad hoc `code` field the server attaches to its
401 errors (src/src/index.ts lines 59-62, 70-73, 240). -/
structure JsError where
  message : String
  code : Option Nat
deriving DecidableEq, Repr

/-- `validateRequest` from src/src/index.ts lines 54-76: missing (or falsy)
header throws a 401-coded error before anything else; otherwise the token is
validated downstream and an invalid token throws a 401-coded error.  A
rejection from `validateToken` itself would propagate uncoded, but
`validateTokenE` never produces one. -/
def validateRequest (f : String → Except String Identity)
    (authHeader : Option String) : Except JsError Unit :=
  if isFalsy authHeader then
    .error { message := "Unauthorized: No authorization token provided.", code := some 401 }
  else
    match authHeader with
    | none =>
        .error { message := "Unauthorized: No authorization token provided.", code := some 401 }
    | some h =>
        match validateTokenE f h with
        | .ok true => .ok ()
        | .ok false =>
            .error { message := "Unauthorized: Invalid or expired token.", code := some 401 }
        | .error msg => .error { message := msg, code := none }

/-- The module-level mutable state of src/src/index.ts lines 13-16: the two
session-keyed maps and the `currentRequestToken` global. -/
structure ServerState where
  streamableTransports : String → Option Nat
  sessionTokens : String → Option String
  currentRequestToken : Option String

/-- Pointwise map update: JavaScript property assignment (`v = some x`) or
`delete` (`v = none`). -/
def updateMap {α : Type} (m : String → Option α) (k : String) (v : Option α) :
    String → Option α :=
  fun x => if x = k then v else m x

/-- One inbound HTTP POST as the handler reads it: the two headers
(src/src/index.ts lines 192-193). -/
structure InboundRequest where
  sessionId : Option String
  authHeader : Option String

/-- The outcome of `transport.handleRequest`, which is external SDK code:
either it completes (streaming the protocol response) or it throws. -/
inductive FrameOutcome where
  | ok
  | threw (e : JsError)
deriving DecidableEq, Repr

/-- What one POST produces: the state left behind, the HTTP status, the
JSON error body `(error, message)` when one is written, and the identity of
the transport instance the frame was fed to (`none` when the request was
rejected before any transport work). -/
structure PostOutcome where
  state : ServerState
  status : Nat
  errorBody : Option (String × String)
  drove : Option Nat

/-- The tail of the handler once a transport has been chosen: feed the frame
and map the result, mirroring the catch block of src/src/index.ts lines
238-251 (401-coded errors → 401 Unauthorized, anything else → 500
Internal Server Error). -/
def finishFrame (s : ServerState) (t : Nat) : FrameOutcome → PostOutcome
  | .ok => { state := s, status := 200, errorBody := none, drove := some t }
  | .threw e =>
      { state := s,
        status := if e.code = some 401 then 401 else 500,
        errorBody := some (if e.code = some 401 then ("Unauthorized", e.message)
                           else ("Internal Server Error", e.message)),
        drove := some t }

/-- The `else` branch of src/src/index.ts lines 214-236: a new transport
with instance tag `freshTid` is constructed and driven.  If the SDK assigns
a session id during `handleRequest` (an initialization frame), the
`onsessioninitialized` callback registers the transport and stores the
token under that id; `initSession` says whether and with which id that
callback fired before the frame outcome was determined. -/
def newTransportBranch (freshTid : Nat) (initSession : Option String)
    (frame : FrameOutcome) (s : ServerState) (req : InboundRequest) : PostOutcome :=
  let s2 := match initSession with
    | some nid =>
        { s with
          streamableTransports := updateMap s.streamableTransports nid (some freshTid),
          sessionTokens := updateMap s.sessionTokens nid req.authHeader }
    | none => s
  finishFrame s2 freshTid frame

/-- The POST /mcp handler, src/src/index.ts lines 190-252, as one state
transformer: validate the credential on every request; on success set the
`currentRequestToken` global, then either reuse the transport registered
for the presented session id (updating that session's stored token) or run
the new-transport branch; finally feed the frame.  A thrown 401-coded error
is answered 401, any other throw 500; mutations made before a throw
persist, as in JavaScript. -/
def handlePost (f : String → Except String Identity) (freshTid : Nat)
    (initSession : Option String) (frame : FrameOutcome)
    (s : ServerState) (req : InboundRequest) : PostOutcome :=
  match validateRequest f req.authHeader with
  | .error e =>
      { state := s,
        status := if e.code = some 401 then 401 else 500,
        errorBody := some (if e.code = some 401 then ("Unauthorized", e.message)
                           else ("Internal Server Error", e.message)),
        drove := none }
  | .ok _ =>
      let s1 := { s with currentRequestToken := req.authHeader }
      match req.sessionId with
      | some sid =>
          match s1.streamableTransports sid with
          | some t =>
              finishFrame
                { s1 with sessionTokens := updateMap s1.sessionTokens sid req.authHeader }
                t frame
          | none => newTransportBranch freshTid initSession frame s1 req
      | none => newTransportBranch freshTid initSession frame s1 req

/-- The `transport.onclose` callback, src/src/index.ts lines 227-233: when
the transport carries a (truthy) session id, both map entries for that id
are deleted; otherwise nothing happens.  `delete` on an absent key is a
no-op in JavaScript, as is re-running the whole callback. -/
def transportOnclose (s : ServerState) (sid : Option String) : ServerState :=
  match sid with
  | none => s
  | some id =>
      if id = "" then s
      else
        { s with
          streamableTransports := updateMap s.streamableTransports id none,
          sessionTokens := updateMap s.sessionTokens id none }

/-- The events that mutate the session table: an HTTP POST, or a close
signal from a transport (carrying that transport's session id, if any). -/
inductive Event where
  | post (freshTid : Nat) (initSession : Option String) (frame : FrameOutcome)
      (req : InboundRequest)
  | closeSignal (sid : Option String)

/-- Apply one event to the server state. -/
def applyEvent (f : String → Except String Identity) (s : ServerState) :
    Event → ServerState
  | .post ft init fr req => (handlePost f ft init fr s req).state
  | .closeSignal sid => transportOnclose s sid

/-- The two session-keyed maps register exactly the same ids. -/
def tableInv (s : ServerState) : Prop :=
  ∀ id, (s.streamableTransports id).isSome ↔ (s.sessionTokens id).isSome

/-- The `user` object the tools/call handler serializes on success,
src/src/index.ts lines 136-142. -/
structure UserPayload where
  id : String
  username : String
  email : String
  displayName : String
  organizationId : String
deriving DecidableEq, Repr

/-- What the get-current-user handler returns as its text content:
either the JSON document with `success` set to true and the `user` object,
or an error string. -/
inductive ToolReply where
  | userJson (u : UserPayload)
  | errorText (msg : String)
deriving DecidableEq, Repr

/-- The `tools/call` handler for get-current-user, src/src/index.ts lines
116-161: it reads the module-level `currentRequestToken`; a falsy value
(never set, or empty) throws, caught by the surrounding try and rendered as
an error string; otherwise the identity API is called with the cleaned
token and the result is shaped into the success payload, any rejection
again rendered as an error string. -/
def getCurrentUser (f : String → Except String Identity)
    (currentRequestToken : Option String) : ToolReply :=
  if isFalsy currentRequestToken then
    .errorText "Error: No valid token found for current request"
  else
    match currentRequestToken with
    | none => .errorText "Error: No valid token found for current request"
    | some tok =>
        match f (cleanToken tok) with
        | .ok u =>
            .userJson
              { id := u.user_id, username := u.username, email := u.email,
                displayName := u.display_name, organizationId := u.organization_id }
        | .error msg => .errorText ("Error: " ++ msg)

/-!
Interleaving model for the `currentRequestToken` global.  Two POSTs, A and
B, are in flight concurrently; for each, the handler performs in program
order (i) the write `currentRequestToken = authHeader` of src/src/index.ts
line 203 and (ii) during `transport.handleRequest`, the read of
`currentRequestToken` by the tools/call handler at lines 119-126, which
fixes the token passed to the identity API.  Both sit between `await`
suspension points of Node's event loop, so the four atomic steps of A and B
may interleave in any order consistent with each request's program order.
-/

/-- The shared global plus each request's progress (0 = about to write the
global, 1 = about to read it in the tool handler, 2 = done) and the token
each request actually handed to the identity API. -/
structure TwoReqState where
  currentRequestToken : Option String
  pcA : Nat
  pcB : Nat
  usedA : Option String
  usedB : Option String
deriving DecidableEq, Repr

/-- The four atomic steps of the two in-flight requests. -/
inductive ConcAction where
  | bindA | bindB | callA | callB
deriving DecidableEq, Repr

/-- One event-loop step: each action fires only at its request's current
program point, otherwise it is a no-op. -/
def concStep (hA hB : String) (s : TwoReqState) : ConcAction → TwoReqState
  | .bindA => if s.pcA = 0 then { s with currentRequestToken := some hA, pcA := 1 } else s
  | .bindB => if s.pcB = 0 then { s with currentRequestToken := some hB, pcB := 1 } else s
  | .callA => if s.pcA = 1 then { s with usedA := s.currentRequestToken, pcA := 2 } else s
  | .callB => if s.pcB = 1 then { s with usedB := s.currentRequestToken, pcB := 2 } else s

/-- Run a schedule of event-loop steps. -/
def concRun (hA hB : String) (l : List ConcAction) (s : TwoReqState) : TwoReqState :=
  l.foldl (concStep hA hB) s

/-- Initial state: no request has run yet. -/
def concInit : TwoReqState :=
  { currentRequestToken := none, pcA := 0, pcB := 0, usedA := none, usedB := none }

/-- The server's state at process start: both maps empty, no current token
(src/src/index.ts lines 13-16). -/
def emptyState : ServerState :=
  { streamableTransports := fun _ => none, sessionTokens := fun _ => none,
    currentRequestToken := none }

/-- A concrete identity record, used to instantiate theorems on closed
inputs. -/
def sampleIdentity : Identity :=
  { user_id := "005xx", username := "alice", email := "alice@example.com",
    display_name := "Alice", organization_id := "00Dxx" }

/-- A downstream identity service that accepts every token. -/
def sampleOk : String → Except String Identity := fun _ => .ok sampleIdentity

/-- A state with one active session "S" on transport 7 holding an old
token, used to instantiate theorems on closed inputs. -/
def sampleState : ServerState :=
  { streamableTransports := fun k => if k = "S" then some 7 else none,
    sessionTokens := fun k => if k = "S" then some "Bearer old" else none,
    currentRequestToken := none }

/-! ### Helper lemmas -/

theorem updateMap_self {α : Type} (m : String → Option α) (k : String) (v : Option α) :
    updateMap m k v k = v := by
  simp [updateMap]

theorem updateMap_other {α : Type} (m : String → Option α) (k : String) (v : Option α)
    (x : String) (h : x ≠ k) : updateMap m k v x = m x := by
  simp [updateMap, h]

theorem finishFrame_state (s : ServerState) (t : Nat) (fr : FrameOutcome) :
    (finishFrame s t fr).state = s := by
  cases fr <;> rfl

theorem finishFrame_drove (s : ServerState) (t : Nat) (fr : FrameOutcome) :
    (finishFrame s t fr).drove = some t := by
  cases fr <;> rfl

theorem validateRequest_ok_of (f : String → Except String Identity) (h : String)
    (u : Identity) (hne : h ≠ "") (hf : f (cleanToken h) = .ok u) :
    validateRequest f (some h) = .ok () := by
  simp [validateRequest, isFalsy, validateTokenE, hf, hne]

theorem validateRequest_error_of (f : String → Except String Identity) (h : String)
    (msg : String) (hne : h ≠ "") (hf : f (cleanToken h) = .error msg) :
    validateRequest f (some h) =
      .error { message := "Unauthorized: Invalid or expired token.", code := some 401 } := by
  simp [validateRequest, isFalsy, validateTokenE, hf, hne]

theorem validateRequest_ok_header (f : String → Except String Identity)
    (ah : Option String) (u : Unit) (hv : validateRequest f ah = .ok u) :
    ∃ h, ah = some h := by
  cases ah with
  | none => simp [validateRequest, isFalsy] at hv
  | some h => exact ⟨h, rfl⟩

theorem handlePost_transports_stable (f : String → Except String Identity) (ft : Nat)
    (init : Option String) (fr : FrameOutcome) (s : ServerState) (req : InboundRequest)
    (id : String) (hinit : init ≠ some id) :
    (handlePost f ft init fr s req).state.streamableTransports id =
      s.streamableTransports id := by
  unfold handlePost
  cases hv : validateRequest f req.authHeader with
  | error e => rfl
  | ok u =>
    simp only
    cases req.sessionId with
    | none =>
      unfold newTransportBranch
      cases init with
      | none => rw [finishFrame_state]
      | some nid =>
        rw [finishFrame_state]
        exact updateMap_other _ _ _ _ (fun hEq => hinit (by rw [hEq]))
    | some sid =>
      cases hl : s.streamableTransports sid with
      | none =>
        simp only [hl]
        unfold newTransportBranch
        cases init with
        | none => rw [finishFrame_state]
        | some nid =>
          rw [finishFrame_state]
          exact updateMap_other _ _ _ _ (fun hEq => hinit (by rw [hEq]))
      | some t =>
        simp only [hl]
        rw [finishFrame_state]

theorem handlePost_preserves_entries (f : String → Except String Identity) (ft : Nat)
    (init : Option String) (fr : FrameOutcome) (s : ServerState) (req : InboundRequest)
    (id : String) (hs : (s.streamableTransports id).isSome) :
    ((handlePost f ft init fr s req).state.streamableTransports id).isSome := by
  by_cases hinit : init = some id
  · unfold handlePost
    cases hv : validateRequest f req.authHeader with
    | error e => exact hs
    | ok u =>
      simp only
      cases req.sessionId with
      | none =>
        unfold newTransportBranch
        rw [hinit]
        simp [finishFrame_state, updateMap_self]
      | some sid =>
        cases hl : s.streamableTransports sid with
        | none =>
          simp only [hl]
          unfold newTransportBranch
          rw [hinit]
          simp [finishFrame_state, updateMap_self]
        | some t =>
          simp only [hl]
          rw [finishFrame_state]
          exact hs
  · rw [handlePost_transports_stable f ft init fr s req id hinit]
    exact hs

theorem removeFirst_of_isPrefixOf (pat l : List Char) (hne : pat ≠ [])
    (hp : pat.isPrefixOf l = true) : removeFirst pat l = l.drop pat.length := by
  cases l with
  | nil =>
    rw [List.isPrefixOf_iff_prefix] at hp
    exact absurd (List.prefix_nil.mp hp) hne
  | cons c rest =>
    unfold removeFirst
    simp [hp]

theorem removeFirst_of_not_containsSub (pat : List Char) (l : List Char)
    (hc : containsSub pat l = false) : removeFirst pat l = l := by
  induction l with
  | nil => rfl
  | cons c rest ih =>
    unfold containsSub at hc
    rw [Bool.or_eq_false_iff] at hc
    unfold removeFirst
    rw [if_neg (by simp [hc.1]), ih hc.2]

theorem containsSub_of_isPrefixOf (pat l : List Char)
    (hp : pat.isPrefixOf l = true) : containsSub pat l = true := by
  cases l with
  | nil =>
    rw [List.isPrefixOf_iff_prefix] at hp
    simp [containsSub, List.prefix_nil.mp hp]
  | cons c rest => simp [containsSub, hp]

theorem handlePost_reuse (f : String → Except String Identity) (ft : Nat)
    (init : Option String) (fr : FrameOutcome) (s : ServerState) (sid : String)
    (t : Nat) (h : String) (u : Identity)
    (hAct : s.streamableTransports sid = some t) (hne : h ≠ "")
    (hf : f (cleanToken h) = .ok u) :
    handlePost f ft init fr s { sessionId := some sid, authHeader := some h } =
      finishFrame
        { s with currentRequestToken := some h,
                 sessionTokens := updateMap s.sessionTokens sid (some h) } t fr := by
  unfold handlePost
  rw [validateRequest_ok_of f h u hne hf]
  simp only [hAct]

theorem handlePost_current_token (f : String → Except String Identity) (ft : Nat)
    (init : Option String) (fr : FrameOutcome) (s : ServerState)
    (sidOpt : Option String) (h : String) (u : Identity) (hne : h ≠ "")
    (hf : f (cleanToken h) = .ok u) :
    (handlePost f ft init fr s
        { sessionId := sidOpt, authHeader := some h }).state.currentRequestToken =
      some h := by
  unfold handlePost
  rw [validateRequest_ok_of f h u hne hf]
  cases sidOpt with
  | none =>
    unfold newTransportBranch
    cases init <;> simp [finishFrame_state]
  | some sid =>
    cases hl : s.streamableTransports sid with
    | none =>
      simp only [hl]
      unfold newTransportBranch
      cases init <;> simp [finishFrame_state]
    | some t =>
      simp only [hl]
      rw [finishFrame_state]

theorem updateMap_idem {α : Type} (m : String → Option α) (k : String) (v : Option α) :
    updateMap (updateMap m k v) k v = updateMap m k v := by
  funext x
  by_cases h : x = k <;> simp [updateMap, h]

theorem updateMap_absent {α : Type} (m : String → Option α) (k : String) (v : Option α)
    (h : m k = v) : updateMap m k v = m := by
  funext x
  by_cases hx : x = k <;> simp [updateMap, hx, h.symm]

theorem tableInv_newTransportBranch (ft : Nat) (init : Option String)
    (fr : FrameOutcome) (s1 : ServerState) (req : InboundRequest) (h : String)
    (hah : req.authHeader = some h) (hInv : tableInv s1) :
    tableInv (newTransportBranch ft init fr s1 req).state := by
  unfold newTransportBranch
  cases init with
  | none =>
    simp only [finishFrame_state]
    exact hInv
  | some nid =>
    simp only [finishFrame_state]
    intro k
    by_cases hk : k = nid
    · subst hk
      simp [updateMap_self, hah]
    · simp only [updateMap_other _ _ _ _ hk]
      exact hInv k

/-! ### Claim theorems -/

/-- Claim C1 is violated by the code: the tools/call handler reads the
module-level global `currentRequestToken` (src/src/index.ts lines 16, 119,
125), not a credential bound to its own session.  Under the event-loop
interleaving in which requests A and B both execute the write at line 203
before A's tool handler performs the read at lines 119-126, the downstream
identity call made on behalf of request A is issued with request B's
credential.  This theorem evaluates that schedule: A hands B's token to
the identity API even though the two headers differ. -/
theorem cross_request_credential_leak :
    (concRun "Bearer request-A-token" "Bearer request-B-token"
        [ConcAction.bindA, ConcAction.bindB, ConcAction.callA, ConcAction.callB]
        concInit).usedA = some "Bearer request-B-token"
    ∧ some "Bearer request-B-token" ≠ some "Bearer request-A-token" := by
  exact ⟨rfl, by decide⟩

/-- Claim C3: a POST whose Authorization header is absent is answered 401
with the no-token message, the whole server state (both session maps and
the current-token global) is returned untouched, and no transport is
driven. -/
theorem no_credential_rejection :
    ∀ (f : String → Except String Identity) (ft : Nat) (init : Option String)
      (fr : FrameOutcome) (s : ServerState) (sid : Option String),
    handlePost f ft init fr s { sessionId := sid, authHeader := none } =
      { state := s, status := 401,
        errorBody := some ("Unauthorized", "Unauthorized: No authorization token provided."),
        drove := none } := by
  intro f ft init fr s sid
  rfl

/-- Claim C6: the onclose cleanup is idempotent — running it a second time
for the same transport changes nothing, and running it when the id has no
table entry (never created, or already closed) returns the state unchanged.
It is a total function, so it never raises. -/
theorem close_idempotent :
    ∀ (s : ServerState) (sid : Option String),
    transportOnclose (transportOnclose s sid) sid = transportOnclose s sid
    ∧ (∀ id, sid = some id → s.streamableTransports id = none →
        s.sessionTokens id = none → transportOnclose s sid = s) := by
  intro s sid
  constructor
  · cases sid with
    | none => rfl
    | some id =>
      by_cases hid : id = ""
      · simp [transportOnclose, hid]
      · simp [transportOnclose, hid, updateMap_idem]
  · intro id hsid h1 h2
    subst hsid
    by_cases hid : id = ""
    · simp [transportOnclose, hid]
    · simp only [transportOnclose, if_neg hid]
      rw [updateMap_absent _ _ _ h1, updateMap_absent _ _ _ h2]

/-- Witness for C6: closing a session id that was never present in the
empty table is a no-op. -/
theorem close_idempotent_witness :
    transportOnclose emptyState (some "S") = emptyState :=
  (close_idempotent emptyState (some "S")).2 "S" rfl rfl rfl

/-- Claim C7: `validateToken` always completes normally with a boolean —
no downstream outcome makes it throw — and the boolean is true exactly when
the downstream identity call succeeded, false exactly when it failed. -/
theorem validateToken_total :
    ∀ (f : String → Except String Identity) (tok : String),
    (∃ b, validateTokenE f tok = .ok b)
    ∧ (validateTokenE f tok = .ok true ↔ ∃ u, f (cleanToken tok) = .ok u)
    ∧ (validateTokenE f tok = .ok false ↔ ∃ msg, f (cleanToken tok) = .error msg) := by
  intro f tok
  cases hf : f (cleanToken tok) <;> simp [validateTokenE, hf]

/-- Counterexample to claim C9 as stated: `replace("Bearer ", "")` removes
the FIRST occurrence of the substring wherever it sits, not only a leading
prefix.  For the header "xBearer y" the code forwards "xy", while
leading-prefix stripping leaves the header verbatim. -/
theorem bearer_strip_counterexample :
    cleanToken "xBearer y" = "xy"
    ∧ stripLeadingBearer "xBearer y" = "xBearer y"
    ∧ cleanToken "xBearer y" ≠ stripLeadingBearer "xBearer y" := by
  refine ⟨by decide, by decide, by decide⟩

/-- Claim C9 as amended: the forwarded string is the header with the first
occurrence of the substring "Bearer " removed, which agrees with the spec's
leading-prefix stripping whenever the header starts with "Bearer ", and
passes the header verbatim when it contains no occurrence at all. -/
theorem bearer_strip_amended :
    ∀ tok : String,
    ("Bearer ".toList.isPrefixOf tok.toList = true ∨
      containsSub "Bearer ".toList tok.toList = false) →
    cleanToken tok = stripLeadingBearer tok := by
  intro tok h
  cases h with
  | inl hp =>
    unfold cleanToken stripLeadingBearer
    rw [if_pos hp, removeFirst_of_isPrefixOf _ _ (by decide) hp]
    have hlen : "Bearer ".toList.length = 7 := by decide
    rw [hlen]
  | inr hc =>
    have hnp : ¬ ("Bearer ".toList.isPrefixOf tok.toList = true) := by
      intro hp
      rw [containsSub_of_isPrefixOf _ _ hp] at hc
      exact Bool.true_eq_false.mp hc
    unfold cleanToken stripLeadingBearer
    rw [removeFirst_of_not_containsSub _ _ hc, if_neg hnp]
    cases tok
    rfl

/-- Witness for C9's amended claim: a normally shaped header is stripped of
its leading prefix, and a header without any "Bearer " occurrence passes
verbatim. -/
theorem bearer_strip_amended_witness :
    cleanToken "Bearer abc" = stripLeadingBearer "Bearer abc"
    ∧ cleanToken "plain" = stripLeadingBearer "plain" :=
  ⟨bearer_strip_amended "Bearer abc" (Or.inl (by decide)),
   bearer_strip_amended "plain" (Or.inr (by decide))⟩

/-- Claim C2: a request addressed to an already-Active session whose
credential the downstream service rejects is answered 401 with the
invalid-token message and leaves the whole server state — in particular the
session's stored token — exactly as it was; the validation is not skipped
for the existing session. -/
theorem revalidation_per_request :
    ∀ (f : String → Except String Identity) (ft : Nat) (init : Option String)
      (fr : FrameOutcome) (s : ServerState) (sid : String) (t : Nat) (h msg : String),
    s.streamableTransports sid = some t →
    h ≠ "" →
    f (cleanToken h) = .error msg →
    handlePost f ft init fr s { sessionId := some sid, authHeader := some h } =
      { state := s, status := 401,
        errorBody := some ("Unauthorized", "Unauthorized: Invalid or expired token."),
        drove := none } := by
  intro f ft init fr s sid t h msg hAct hne hf
  unfold handlePost
  rw [validateRequest_error_of f h msg hne hf]
  rfl

/-- Witness for C2: session "S" is active with an old stored token; a
request presenting a now-rejected token gets 401 and the state, stored
token included, is untouched. -/
theorem revalidation_per_request_witness :
    handlePost (fun _ => Except.error "expired") 0 none FrameOutcome.ok sampleState
        { sessionId := some "S", authHeader := some "Bearer bad" } =
      { state := sampleState, status := 401,
        errorBody := some ("Unauthorized", "Unauthorized: Invalid or expired token."),
        drove := none } :=
  revalidation_per_request (fun _ => Except.error "expired") 0 none FrameOutcome.ok
    sampleState "S" 7 "Bearer bad" "expired" rfl (by decide) rfl

/-- Claim C4: a valid request carrying the id of an Active session is fed
to exactly the transport instance registered for that id, the transport map
is completely unchanged (so the id still maps to that single entry), and —
since fresh session ids generated by randomUUID never collide with a live
id — no POST whatsoever rebinds a live id to a different transport
instance; only a close signal can clear it. -/
theorem session_reuse_no_migration :
    ∀ (f : String → Except String Identity) (ft : Nat) (init : Option String)
      (fr : FrameOutcome) (s : ServerState) (sid : String) (t : Nat) (h : String)
      (u : Identity),
    s.streamableTransports sid = some t →
    h ≠ "" →
    f (cleanToken h) = .ok u →
    ((handlePost f ft init fr s
        { sessionId := some sid, authHeader := some h }).drove = some t
     ∧ (∀ id, (handlePost f ft init fr s
          { sessionId := some sid, authHeader := some h }).state.streamableTransports id =
            s.streamableTransports id))
    ∧ (∀ (f2 : String → Except String Identity) (ft2 : Nat) (init2 : Option String)
         (fr2 : FrameOutcome) (s2 : ServerState) (req2 : InboundRequest),
        s2.streamableTransports sid = some t → init2 ≠ some sid →
        (handlePost f2 ft2 init2 fr2 s2 req2).state.streamableTransports sid = some t) := by
  intro f ft init fr s sid t h u hAct hne hf
  constructor
  · rw [handlePost_reuse f ft init fr s sid t h u hAct hne hf]
    exact ⟨finishFrame_drove _ _ _, fun id => by rw [finishFrame_state]⟩
  · intro f2 ft2 init2 fr2 s2 req2 hAct2 hinit2
    rw [handlePost_transports_stable f2 ft2 init2 fr2 s2 req2 sid hinit2]
    exact hAct2

/-- Witness for C4: a fresh valid request for active session "S" is fed to
the very transport instance 7 registered for "S". -/
theorem session_reuse_no_migration_witness :
    (handlePost sampleOk 0 none FrameOutcome.ok sampleState
        { sessionId := some "S", authHeader := some "Bearer fresh" }).drove = some 7 :=
  (session_reuse_no_migration sampleOk 0 none FrameOutcome.ok sampleState "S" 7
      "Bearer fresh" sampleIdentity rfl (by decide) rfl).1.1

/-- Claim C5: when the frame handling of an authenticated request against
an Active session throws (with anything but the handler's own 401-coded
auth errors), the response is 500 with the Internal Server Error body and
the session's transport entry survives; more generally no POST handling
ever removes a table entry — removal happens only in the transport's
onclose callback. -/
theorem frame_error_preserves_session :
    ∀ (f : String → Except String Identity) (ft : Nat) (init : Option String)
      (s : ServerState) (sid : String) (t : Nat) (h : String) (u : Identity)
      (e : JsError),
    s.streamableTransports sid = some t →
    h ≠ "" →
    f (cleanToken h) = .ok u →
    e.code ≠ some 401 →
    ((handlePost f ft init (FrameOutcome.threw e) s
        { sessionId := some sid, authHeader := some h }).status = 500
     ∧ (handlePost f ft init (FrameOutcome.threw e) s
          { sessionId := some sid, authHeader := some h }).errorBody =
         some ("Internal Server Error", e.message)
     ∧ (handlePost f ft init (FrameOutcome.threw e) s
          { sessionId := some sid, authHeader := some h }).state.streamableTransports sid =
         some t)
    ∧ (∀ (f2 : String → Except String Identity) (ft2 : Nat) (init2 : Option String)
         (fr2 : FrameOutcome) (s2 : ServerState) (req2 : InboundRequest) (id : String),
        (s2.streamableTransports id).isSome →
        ((handlePost f2 ft2 init2 fr2 s2 req2).state.streamableTransports id).isSome) := by
  intro f ft init s sid t h u e hAct hne hf hcode
  constructor
  · rw [handlePost_reuse f ft init (FrameOutcome.threw e) s sid t h u hAct hne hf]
    refine ⟨?_, ?_, ?_⟩
    · simp [finishFrame, hcode]
    · simp [finishFrame, hcode]
    · rw [finishFrame_state]
      exact hAct
  · exact fun f2 ft2 init2 fr2 s2 req2 id hs =>
      handlePost_preserves_entries f2 ft2 init2 fr2 s2 req2 id hs

/-- Witness for C5: an authenticated request on session "S" whose frame
handling throws an uncoded error gets a 500 and transport 7 stays
registered for "S". -/
theorem frame_error_preserves_session_witness :
    (handlePost sampleOk 0 none (FrameOutcome.threw { message := "boom", code := none })
        sampleState { sessionId := some "S", authHeader := some "Bearer fresh" }).status =
      500 :=
  (frame_error_preserves_session sampleOk 0 none sampleState "S" 7 "Bearer fresh"
      sampleIdentity { message := "boom", code := none } rfl (by decide) rfl
      (by decide)).1.1

/-- Claim C8: after any valid POST carrying header `h`, the token the tool
handler will read is exactly `h`, and the get-current-user reply is the
success payload whose id, username, email, displayName and organizationId
are precisely the user_id, username, email, display_name and
organization_id the downstream identity call returned for that (cleaned)
credential. -/
theorem get_current_user_forwarding :
    ∀ (f : String → Except String Identity) (ft : Nat) (init : Option String)
      (fr : FrameOutcome) (s : ServerState) (sidOpt : Option String) (h : String)
      (u : Identity),
    h ≠ "" →
    f (cleanToken h) = .ok u →
    (handlePost f ft init fr s
        { sessionId := sidOpt, authHeader := some h }).state.currentRequestToken = some h
    ∧ getCurrentUser f
        (handlePost f ft init fr s
          { sessionId := sidOpt, authHeader := some h }).state.currentRequestToken =
        ToolReply.userJson
          { id := u.user_id, username := u.username, email := u.email,
            displayName := u.display_name, organizationId := u.organization_id } := by
  intro f ft init fr s sidOpt h u hne hf
  have hcur := handlePost_current_token f ft init fr s sidOpt h u hne hf
  refine ⟨hcur, ?_⟩
  rw [hcur]
  simp [getCurrentUser, isFalsy, hne, hf]

/-- Witness for C8: a valid first request returns the sample identity's
fields verbatim in the success payload. -/
theorem get_current_user_forwarding_witness :
    getCurrentUser sampleOk
        (handlePost sampleOk 0 none FrameOutcome.ok emptyState
          { sessionId := none, authHeader := some "Bearer fresh" }).state.currentRequestToken =
      ToolReply.userJson
        { id := "005xx", username := "alice", email := "alice@example.com",
          displayName := "Alice", organizationId := "00Dxx" } :=
  (get_current_user_forwarding sampleOk 0 none FrameOutcome.ok emptyState none
      "Bearer fresh" sampleIdentity (by decide) rfl).2

/-- Claim C10: every table-mutating event — a POST (covering session
initialization and the token update on session reuse) or a transport close
signal — preserves the alignment of the two maps: an id has a registered
transport exactly when it has a stored token. -/
theorem table_maps_aligned :
    ∀ (f : String → Except String Identity) (s : ServerState),
    tableInv s → ∀ e : Event, tableInv (applyEvent f s e) := by
  intro f s hInv e
  cases e with
  | closeSignal sid =>
    cases sid with
    | none => exact hInv
    | some id =>
      by_cases hid : id = ""
      · simpa [applyEvent, transportOnclose, hid] using hInv
      · intro k
        simp only [applyEvent, transportOnclose, if_neg hid]
        by_cases hk : k = id
        · subst hk
          simp [updateMap_self]
        · rw [updateMap_other _ _ _ _ hk, updateMap_other _ _ _ _ hk]
          exact hInv k
  | post ft init fr req =>
    rcases req with ⟨sidOpt, ah⟩
    simp only [applyEvent]
    cases hv : validateRequest f ah with
    | error e' =>
      have hstate : (handlePost f ft init fr s
          { sessionId := sidOpt, authHeader := ah }).state = s := by
        unfold handlePost
        rw [hv]
      rw [hstate]
      exact hInv
    | ok u =>
      obtain ⟨h, hah⟩ := validateRequest_ok_header f ah u hv
      subst hah
      unfold handlePost
      rw [hv]
      cases sidOpt with
      | none => exact tableInv_newTransportBranch ft init fr _ _ h rfl hInv
      | some sid =>
        cases hl : s.streamableTransports sid with
        | none =>
          simp only [hl]
          exact tableInv_newTransportBranch ft init fr _ _ h rfl hInv
        | some t =>
          simp only [hl]
          intro k
          simp only [finishFrame_state]
          by_cases hk : k = sid
          · subst hk
            simp [updateMap_self, hl]
          · simp only [updateMap_other _ _ _ _ hk]
            exact hInv k

/-- Witness for C10: starting from the empty table, a POST that initializes
session "N" leaves the two maps aligned. -/
theorem table_maps_aligned_witness :
    tableInv (applyEvent sampleOk emptyState
      (Event.post 3 (some "N") FrameOutcome.ok
        { sessionId := none, authHeader := some "Bearer fresh" })) :=
  table_maps_aligned sampleOk emptyState (fun _ => Iff.rfl)
    (Event.post 3 (some "N") FrameOutcome.ok
      { sessionId := none, authHeader := some "Bearer fresh" })

end SalesforceMcp
